import Mathlib

/-!
Verification development for the gotrue trust-state core: the AMR claim
ledger, MFA factor store, session assurance-level downgrade, and the
email verification-token pipeline (api/mail.go, models/amr.go,
models/factor.go).

The Go source is shallowly embedded: machine words are Nat reduced
modulo 2 ^ 32, timestamps are Int instants, database tables are lists of
rows, and fallible collaborators (mailer, storage round-trips) are
explicit parameters.  Parts of the repository that are referenced by the
source but not present in it (the session store queries used by
DowngradeSessionsToAAL1 and the surrounding transaction machinery) are
modelled from the specification and marked as such in their doc
comments.
-/

deriving instance DecidableEq for Except

/-! ## SHA-224 (FIPS 180-4), as used by crypto/sha256.Sum224 in the source -/

/-- Right rotation of a 32-bit word held in a Nat. -/
def rotr32 (x n : Nat) : Nat := ((x >>> n) ||| (x <<< (32 - n))) % 4294967296

/-- Big sigma-0 function of the SHA-256 compression. -/
def bsig0 (x : Nat) : Nat := (rotr32 x 2) ^^^ ((rotr32 x 13) ^^^ (rotr32 x 22))

/-- Big sigma-1 function of the SHA-256 compression. -/
def bsig1 (x : Nat) : Nat := (rotr32 x 6) ^^^ ((rotr32 x 11) ^^^ (rotr32 x 25))

/-- Small sigma-0 function of the SHA-256 message schedule. -/
def ssig0 (x : Nat) : Nat := (rotr32 x 7) ^^^ ((rotr32 x 18) ^^^ (x >>> 3))

/-- Small sigma-1 function of the SHA-256 message schedule. -/
def ssig1 (x : Nat) : Nat := (rotr32 x 17) ^^^ ((rotr32 x 19) ^^^ (x >>> 10))

/-- Round constants of SHA-256. -/
def K256 : List Nat := [1116352408, 1899447441, 3049323471, 3921009573, 961987163, 1508970993, 2453635748, 2870763221, 3624381080, 310598401, 607225278, 1426881987, 1925078388, 2162078206, 2614888103, 3248222580, 3835390401, 4022224774, 264347078, 604807628, 770255983, 1249150122, 1555081692, 1996064986, 2554220882, 2821834349, 2952996808, 3210313671, 3336571891, 3584528711, 113926993, 338241895, 666307205, 773529912, 1294757372, 1396182291, 1695183700, 1986661051, 2177026350, 2456956037, 2730485921, 2820302411, 3259730800, 3345764771, 3516065817, 3600352804, 4094571909, 275423344, 430227734, 506948616, 659060556, 883997877, 958139571, 1322822218, 1537002063, 1747873779, 1955562222, 2024104815, 2227730452, 2361852424, 2428436474, 2756734187, 3204031479, 3329325298]

/-- Working state of the SHA-256 compression: eight 32-bit words. -/
structure Hash8 where
  a : Nat
  b : Nat
  c : Nat
  d : Nat
  e : Nat
  f : Nat
  g : Nat
  h : Nat
deriving DecidableEq

/-- Initial hash value of SHA-224. -/
def initH224 : Hash8 := ⟨3238371032, 914150663, 812702999, 4144912697, 4290775857, 1750603025, 1694076839, 3204075428⟩

/-- One round of the SHA-256 compression on a (round constant, schedule word) pair. -/
def shaRound (s : Hash8) (kw : Nat × Nat) : Hash8 :=
  let ch := (s.e &&& s.f) ^^^ ((4294967295 ^^^ s.e) &&& s.g)
  let maj := (s.a &&& s.b) ^^^ ((s.a &&& s.c) ^^^ (s.b &&& s.c))
  let t1 := s.h + bsig1 s.e + ch + kw.1 + kw.2
  let t2 := bsig0 s.a + maj
  ⟨(t1 + t2) % 4294967296, s.a, s.b, s.c, (s.d + t1) % 4294967296, s.e, s.f, s.g⟩

/-- Parse big-endian 32-bit words out of a byte list. -/
def bytesToWords : List Nat → List Nat
  | b0 :: b1 :: b2 :: b3 :: rest => (((b0 * 256 + b1) * 256 + b2) * 256 + b3) :: bytesToWords rest
  | _ => []

/-- Extend the 16-word block to the 64-word message schedule (fuel-counted). -/
def extendSchedule : List Nat → Nat → List Nat
  | w, 0 => w
  | w, Nat.succ n =>
    let i := w.length
    let next := (ssig1 (w.getD (i - 2) 0) + w.getD (i - 7) 0 + ssig0 (w.getD (i - 15) 0) + w.getD (i - 16) 0) % 4294967296
    extendSchedule (w ++ [next]) n

/-- Compress one 64-byte block into the running hash state. -/
def compressBlock (hs : Hash8) (block : List Nat) : Hash8 :=
  let w := extendSchedule (bytesToWords block) 48
  let s := (K256.zip w).foldl shaRound hs
  ⟨(hs.a + s.a) % 4294967296, (hs.b + s.b) % 4294967296, (hs.c + s.c) % 4294967296, (hs.d + s.d) % 4294967296, (hs.e + s.e) % 4294967296, (hs.f + s.f) % 4294967296, (hs.g + s.g) % 4294967296, (hs.h + s.h) % 4294967296⟩

/-- Big-endian 8-byte rendering of a length counter. -/
def beBytes8 (n : Nat) : List Nat :=
  [n / 72057594037927936 % 256, n / 281474976710656 % 256, n / 1099511627776 % 256, n / 4294967296 % 256, n / 16777216 % 256, n / 65536 % 256, n / 256 % 256, n % 256]

/-- FIPS 180-4 message padding: append 0x80, zero bytes to 56 mod 64, then the bit length. -/
def padMessage (msg : List Nat) : List Nat :=
  let padLen := (119 - (msg.length % 64)) % 64
  msg ++ (128 :: List.replicate padLen 0) ++ beBytes8 (msg.length * 8)

/-- Split a padded message into 64-byte blocks (fuel-counted by block count). -/
def chunkBlocks : Nat → List Nat → List (List Nat)
  | 0, _ => []
  | Nat.succ n, l => l.take 64 :: chunkBlocks n (l.drop 64)

/-- SHA-224 of a byte list: compress all blocks starting from the SHA-224 initial state. -/
def sha224Words (msg : List Nat) : Hash8 :=
  let padded := padMessage msg
  (chunkBlocks (padded.length / 64) padded).foldl compressBlock initH224

/-- Lowercase hexadecimal digits, in order. -/
def hexChars : List Char := ("0123456789abcdef").data

/-- Lowercase hexadecimal digit of the low nibble of a Nat. -/
def hexDigit (n : Nat) : Char := hexChars.getD (n % 16) ('0')

/-- Eight lowercase hex characters of a 32-bit word, most significant nibble first.
This matches the %x rendering fmt.Sprintf applies to the digest bytes. -/
def wordHex (w : Nat) : List Char := [hexDigit (w / 268435456), hexDigit (w / 16777216), hexDigit (w / 1048576), hexDigit (w / 65536), hexDigit (w / 4096), hexDigit (w / 256), hexDigit (w / 16), hexDigit w]

/-- Lowercase hex string of the SHA-224 digest of a byte list: the first seven
state words (224 bits, 56 hex characters). -/
def sha224HexBytes (msg : List Nat) : String :=
  let hs := sha224Words msg
  ⟨wordHex hs.a ++ (wordHex hs.b ++ (wordHex hs.c ++ (wordHex hs.d ++ (wordHex hs.e ++ (wordHex hs.f ++ wordHex hs.g)))))⟩

/-- UTF-8 encoding of one character, as Go produces when converting string to bytes. -/
def utf8Bytes (c : Char) : List Nat :=
  let n := c.toNat
  if n < 128 then [n]
  else if n < 2048 then [192 + n / 64, 128 + n % 64]
  else if n < 65536 then [224 + n / 4096, 128 + n / 64 % 64, 128 + n % 64]
  else [240 + n / 262144, 128 + n / 4096 % 64, 128 + n / 64 % 64, 128 + n % 64]

/-- UTF-8 bytes of a string, mirroring the Go conversion from string to a byte slice. -/
def strBytes (s : String) : List Nat := (s.data.map utf8Bytes).flatten

/-- Token derivation of the source, translated from mail.go line 91 and the send
flows: fmt.Sprintf of the %x rendering of sha256.Sum224 applied to the UTF-8
bytes of the concatenated identifier and one-time code. -/
def sha224Hex (s : String) : String := sha224HexBytes (strBytes s)

/-! ## Error taxonomy and user record -/

/-- Error values returned by the embedded operations.  wrapped mirrors
errors.Wrap from github.com/pkg/errors: a context message around a cause. -/
inductive GoError where
  | maxFrequencyLimit : GoError
  | wrapped : String → GoError → GoError
  | dispatchFailure : String → GoError
  | dbError : String → GoError
  | factorNotFound : GoError
  | unprocessableEntity : String → GoError
deriving DecidableEq

/-- User record, restricted to the columns the mail flows read and write
(models.User fields consumed by api/mail.go). -/
structure User where
  email : String := ""
  confirmationToken : String := ""
  confirmationSentAt : Option Int := none
  invitedAt : Option Int := none
  recoveryToken : String := ""
  recoverySentAt : Option Int := none
  reauthenticationToken : String := ""
  reauthenticationSentAt : Option Int := none
  emailChange : String := ""
  emailChangeTokenCurrent : String := ""
  emailChangeTokenNew : String := ""
  emailChangeSentAt : Option Int := none
  emailChangeConfirmStatus : Nat := 0
deriving DecidableEq

/-- Outcome of one send flow: the returned error, the in-memory user record
after the call (the Go functions mutate the user through a pointer), and the
user row as persisted by tx.UpdateOnly (unchanged when no update ran). -/
structure SendResult where
  err : Option GoError
  mem : User
  persisted : User
deriving DecidableEq

/-! ## Rate gate -/

/-- Inline frequency guard of the send flows, translated from the condition
u.SentAt != nil && !u.SentAt.Add(maxFrequency).Before(time.Now()) of
sendConfirmation, sendPasswordRecovery, sendMagicLink and
sendReauthenticationOtp: the flow is blocked exactly when this is true. -/
def rateBlocked (lastSentAt : Option Int) (maxFrequency now : Int) : Bool :=
  match lastSentAt with
  | none => false
  | some t0 => !(decide (t0 + maxFrequency < now))

/-- RateGate of the specification, the positive form of the inline guard:
true when the operation may proceed. -/
def mayIssue (lastSentAt : Option Int) (minInterval now : Int) : Bool :=
  !(rateBlocked lastSentAt minInterval now)

/-! ## Send flows (api/mail.go) -/

/-- sendConfirmation, translated from mail.go lines 223-241.  genOtp stands for
crypto.GenerateOtp, mailFails for a failing mailer.ConfirmationMail call,
updateFails for a failing tx.UpdateOnly. -/
def sendConfirmation (genOtp : Except GoError String) (mailFails updateFails : Bool) (now maxFrequency : Int) (u : User) : SendResult :=
  if rateBlocked u.confirmationSentAt maxFrequency now then
    ⟨some GoError.maxFrequencyLimit, u, u⟩
  else
    match genOtp with
    | .error e => ⟨some e, u, u⟩
    | .ok otp =>
      let oldToken := u.confirmationToken
      let u1 : User := { u with confirmationToken := sha224Hex (u.email ++ otp) }
      if mailFails then
        ⟨some (GoError.wrapped ("Error sending confirmation email") (GoError.dispatchFailure ("confirmation"))), { u1 with confirmationToken := oldToken }, u⟩
      else
        let u2 : User := { u1 with confirmationSentAt := some now }
        if updateFails then
          ⟨some (GoError.wrapped ("Database error updating user for confirmation") (GoError.dbError ("update"))), u2, u⟩
        else
          ⟨none, u2, { u with confirmationToken := u2.confirmationToken, confirmationSentAt := u2.confirmationSentAt }⟩

/-- sendInvite, translated from mail.go lines 243-259.  The source performs no
frequency check: the body goes straight from otp generation to dispatch. -/
def sendInvite (genOtp : Except GoError String) (mailFails updateFails : Bool) (now : Int) (u : User) : SendResult :=
  match genOtp with
  | .error e => ⟨some e, u, u⟩
  | .ok otp =>
    let oldToken := u.confirmationToken
    let u1 : User := { u with confirmationToken := sha224Hex (u.email ++ otp) }
    if mailFails then
      ⟨some (GoError.wrapped ("Error sending invite email") (GoError.dispatchFailure ("invite"))), { u1 with confirmationToken := oldToken }, u⟩
    else
      let u2 : User := { u1 with invitedAt := some now, confirmationSentAt := some now }
      if updateFails then
        ⟨some (GoError.wrapped ("Database error updating user for invite") (GoError.dbError ("update"))), u2, u⟩
      else
        ⟨none, u2, { u with confirmationToken := u2.confirmationToken, confirmationSentAt := u2.confirmationSentAt, invitedAt := u2.invitedAt }⟩

/-- sendPasswordRecovery, translated from mail.go lines 261-280. -/
def sendPasswordRecovery (genOtp : Except GoError String) (mailFails updateFails : Bool) (now maxFrequency : Int) (u : User) : SendResult :=
  if rateBlocked u.recoverySentAt maxFrequency now then
    ⟨some GoError.maxFrequencyLimit, u, u⟩
  else
    match genOtp with
    | .error e => ⟨some e, u, u⟩
    | .ok otp =>
      let oldToken := u.recoveryToken
      let u1 : User := { u with recoveryToken := sha224Hex (u.email ++ otp) }
      if mailFails then
        ⟨some (GoError.wrapped ("Error sending recovery email") (GoError.dispatchFailure ("recovery"))), { u1 with recoveryToken := oldToken }, u⟩
      else
        let u2 : User := { u1 with recoverySentAt := some now }
        if updateFails then
          ⟨some (GoError.wrapped ("Database error updating user for recovery") (GoError.dbError ("update"))), u2, u⟩
        else
          ⟨none, u2, { u with recoveryToken := u2.recoveryToken, recoverySentAt := u2.recoverySentAt }⟩

/-- sendMagicLink, translated from mail.go lines 306-326: deliberately reuses
the recovery token and recovery sent-at fields and their frequency window. -/
def sendMagicLink (genOtp : Except GoError String) (mailFails updateFails : Bool) (now maxFrequency : Int) (u : User) : SendResult :=
  if rateBlocked u.recoverySentAt maxFrequency now then
    ⟨some GoError.maxFrequencyLimit, u, u⟩
  else
    match genOtp with
    | .error e => ⟨some e, u, u⟩
    | .ok otp =>
      let oldToken := u.recoveryToken
      let u1 : User := { u with recoveryToken := sha224Hex (u.email ++ otp) }
      if mailFails then
        ⟨some (GoError.wrapped ("Error sending magic link email") (GoError.dispatchFailure ("magiclink"))), { u1 with recoveryToken := oldToken }, u⟩
      else
        let u2 : User := { u1 with recoverySentAt := some now }
        if updateFails then
          ⟨some (GoError.wrapped ("Database error updating user for recovery") (GoError.dbError ("update"))), u2, u⟩
        else
          ⟨none, u2, { u with recoveryToken := u2.recoveryToken, recoverySentAt := u2.recoverySentAt }⟩

/-- sendReauthenticationOtp, translated from mail.go lines 282-304. -/
def sendReauthenticationOtp (genOtp : Except GoError String) (mailFails updateFails : Bool) (now maxFrequency : Int) (u : User) : SendResult :=
  if rateBlocked u.reauthenticationSentAt maxFrequency now then
    ⟨some GoError.maxFrequencyLimit, u, u⟩
  else
    match genOtp with
    | .error e => ⟨some e, u, u⟩
    | .ok otp =>
      let oldToken := u.reauthenticationToken
      let u1 : User := { u with reauthenticationToken := sha224Hex (u.email ++ otp) }
      if mailFails then
        ⟨some (GoError.wrapped ("Error sending reauthentication email") (GoError.dispatchFailure ("reauthentication"))), { u1 with reauthenticationToken := oldToken }, u⟩
      else
        let u2 : User := { u1 with reauthenticationSentAt := some now }
        if updateFails then
          ⟨some (GoError.wrapped ("Database error updating user for reauthentication") (GoError.dbError ("update"))), u2, u⟩
        else
          ⟨none, u2, { u with reauthenticationToken := u2.reauthenticationToken, reauthenticationSentAt := u2.reauthenticationSentAt }⟩

/-! ## Email validation and GenerateLink (api/mail.go) -/

/-- validateEmail, translated from mail.go lines 366-375.  mailerValidates
stands for the external mailer.ValidateEmail collaborator; the Go
strings.ToLower is embedded as the character-wise lowercase map. -/
def validateEmail (mailerValidates : String → Bool) (email : String) : Except GoError String :=
  if email = "" then .error (GoError.unprocessableEntity ("An email address is required"))
  else if !(mailerValidates email) then .error (GoError.unprocessableEntity ("Unable to validate email address"))
  else .ok (⟨email.data.map Char.toLower⟩ : String)

/-- Front of the GenerateLink handler (mail.go lines 61-64 and 91): the
submitted email is passed through validateEmail, and the validated value is
what both the user lookup and the hashed-token derivation receive.  Returns
the validated email together with the derived hashed token. -/
def generateLinkValidateAndHash (mailerValidates : String → Bool) (rawEmail otp : String) : Except GoError (String × String) :=
  match validateEmail mailerValidates rawEmail with
  | .error e => .error e
  | .ok email => .ok (email, sha224Hex (email ++ otp))

/-- Response shape of GenerateLink (mail.go lines 34-41 and 211-218). -/
structure GenerateLinkResponse where
  user : User
  actionLink : String
  emailOtp : String
  hashedToken : String
  verificationType : String
  redirectTo : String
deriving DecidableEq

/-- External collaborators of the email-change arm of GenerateLink. -/
structure GenLinkEnv where
  mailerValidates : String → Bool
  secureEmailChangeEnabled : Bool
  dupCheckFails : Bool
  isDuplicate : Bool
  updateFails : Bool
  linkFails : Bool
  actionLink : String

/-- Email-change arm of GenerateLink, translated from mail.go lines 169-194
and the response construction at lines 200-218.  currentEmail is params.Email
after validation; the hashed token of line 91 is derived from it, while the
email-change-new branch persists a token derived from the validated new
email.  On success the persisted row carries exactly the five columns named
in the tx.UpdateOnly call. -/
def generateLinkEmailChange (env : GenLinkEnv) (linkType currentEmail newEmailRaw otp : String) (now : Int) (referrer : String) (u : User) : Except GoError (User × GenerateLinkResponse) :=
  let hashedToken := sha224Hex (currentEmail ++ otp)
  if !env.secureEmailChangeEnabled && linkType == "email_change_current" then
    .error (GoError.unprocessableEntity ("Enable secure email change to generate link for current email"))
  else
    match validateEmail env.mailerValidates newEmailRaw with
    | .error _ => .error (GoError.unprocessableEntity ("The new email address provided is invalid"))
    | .ok newEmail =>
      if env.dupCheckFails then
        .error (GoError.wrapped ("Database error checking email") (GoError.dbError ("duplicate check")))
      else if env.isDuplicate then
        .error (GoError.unprocessableEntity ("A user with this email address has already been registered"))
      else
        let u1 : User := { u with emailChangeSentAt := some now, emailChange := newEmail, emailChangeConfirmStatus := 0 }
        let u2 : User :=
          if linkType == "email_change_current" then { u1 with emailChangeTokenCurrent := hashedToken }
          else if linkType == "email_change_new" then { u1 with emailChangeTokenNew := sha224Hex (newEmail ++ otp) }
          else u1
        if env.updateFails then
          .error (GoError.wrapped ("Database error updating user for email change") (GoError.dbError ("update")))
        else if env.linkFails then
          .error (GoError.dispatchFailure ("action link"))
        else
          .ok ({ u with emailChangeTokenCurrent := u2.emailChangeTokenCurrent, emailChangeTokenNew := u2.emailChangeTokenNew, emailChange := u2.emailChange, emailChangeSentAt := u2.emailChangeSentAt, emailChangeConfirmStatus := u2.emailChangeConfirmStatus },
              { user := u2, actionLink := env.actionLink, emailOtp := otp, hashedToken := hashedToken, verificationType := linkType, redirectTo := referrer })

/-! ## Authentication methods and the AMR ledger (models/amr.go) -/

/-- AuthenticationMethod enumeration of the models package. -/
inductive AuthenticationMethod where
  | oauth : AuthenticationMethod
  | passwordGrant : AuthenticationMethod
  | otp : AuthenticationMethod
  | totpSignIn : AuthenticationMethod
deriving DecidableEq

/-- String method of AuthenticationMethod, translated from models/factor.go. -/
def methodString : AuthenticationMethod → String
  | .oauth => "oauth"
  | .passwordGrant => "password"
  | .otp => "otp"
  | .totpSignIn => "totp"

/-- Row of the mfa_amr_claims table (models/amr.go). -/
structure AMRClaim where
  id : Nat
  sessionId : Nat
  createdAt : Int
  updatedAt : Int
  authenticationMethod : String
deriving DecidableEq

/-- Session row.  Modelled from the spec: Session is an external entity of
this core (spec section 3) carrying an assurance level and, per the
sessions-by-factor-id query, an association with the factor that elevated
it; the session model itself is not under src.  aal holds the session's
assurance level string. -/
structure Session where
  id : Nat
  userId : Nat
  factorId : Option Nat
  aal : String
deriving DecidableEq

/-- AddClaimToSession, translated from the raw upsert of models/amr.go lines
25-35: INSERT a fresh row (id, session_id, created_at, updated_at,
authentication_method); ON CONFLICT on the (session_id,
authentication_method) key, UPDATE only updated_at to the current time. -/
def AddClaimToSession (claimId : Nat) (session : Session) (method : AuthenticationMethod) (currentTime : Int) (claims : List AMRClaim) : List AMRClaim :=
  let m := methodString method
  if claims.any (fun c => c.sessionId == session.id && c.authenticationMethod == m) then
    claims.map (fun c => if c.sessionId == session.id && c.authenticationMethod == m then { c with updatedAt := currentTime } else c)
  else
    claims ++ [{ id := claimId, sessionId := session.id, createdAt := currentTime, updatedAt := currentTime, authenticationMethod := m }]

/-- Iterated AddClaimToSession calls for one (session, method) pair; each call
carries the fresh uuid and the wall-clock time of that call. -/
def addClaimCalls (session : Session) (method : AuthenticationMethod) : List (Nat × Int) → List AMRClaim → List AMRClaim
  | [], claims => claims
  | call :: rest, claims => addClaimCalls session method rest (AddClaimToSession call.1 session method call.2 claims)

/-! ## Factor store (models/factor.go) -/

/-- Row of the mfa_factors table. -/
structure Factor where
  id : Nat
  userId : Nat
  createdAt : Int
  updatedAt : Int
  status : String
  friendlyName : String
  secret : String
  factorType : String
deriving DecidableEq

/-- Outcome of the storage round-trip behind findFactor: the row, a
sql.ErrNoRows miss, or any other storage failure. -/
inductive FactorLookup where
  | found : Factor → FactorLookup
  | noRows : FactorLookup
  | dbError : String → FactorLookup
deriving DecidableEq

/-- findFactor, translated from models/factor.go lines 96-106: a no-rows miss
becomes FactorNotFoundError, any other failure is wrapped as a database
error. -/
def findFactor (r : FactorLookup) : Except GoError Factor :=
  match r with
  | .found f => .ok f
  | .noRows => .error GoError.factorNotFound
  | .dbError msg => .error (GoError.wrapped ("Database error finding factor") (GoError.dbError msg))

/-- FindFactorByFactorID, translated from models/factor.go lines 88-94: every
error coming back from findFactor, whatever its kind, is replaced by
FactorNotFoundError. -/
def FindFactorByFactorID (r : FactorLookup) : Except GoError Factor :=
  match findFactor r with
  | .ok f => .ok f
  | .error _ => .error GoError.factorNotFound

/-! ## Session downgrade (models/factor.go DowngradeSessionsToAAL1) -/

/-- Database state touched by the downgrade: the session rows and the AMR
claim rows. -/
structure DBState where
  sessions : List Session
  amrClaims : List AMRClaim
deriving DecidableEq

/-- Failure injection for the storage operations the downgrade performs. -/
structure DowngradeOps where
  findSessionsFails : Bool
  deleteClaimFails : Nat → Bool
  updateSessionsFails : Bool

/-- Baseline assurance level constant.  Modelled from the spec: the AAL1
constant lives in the session models outside src; the glossary defines it as
the baseline (single-factor) assurance tier. -/
def AAL1String : String := "aal1"

/-- FindSessionsByFactorID.  Modelled from the spec: the sessions-by-factor-id
query (spec sections 4.3 and 6) supplied by session storage and consumed
read-only by the downgrade; it returns every session currently bound to the
factor. -/
def FindSessionsByFactorID (ops : DowngradeOps) (factorId : Nat) (db : DBState) : Except GoError (List Session) :=
  if ops.findSessionsFails then .error (GoError.dbError ("find sessions"))
  else .ok (db.sessions.filter (fun s => s.factorId == some factorId))

/-- updateFactorAssociatedSessions.  Modelled from the spec: step 3 of the
downgrade algorithm (spec section 4.3) sets the assurance level to baseline
for every session belonging to the user that was associated with this
factor; the helper itself is not under src. -/
def updateFactorAssociatedSessions (ops : DowngradeOps) (userId factorId : Nat) (aal : String) (db : DBState) : Except GoError DBState :=
  if ops.updateSessionsFails then .error (GoError.dbError ("update sessions"))
  else .ok { db with sessions := db.sessions.map (fun s => if s.userId == userId && s.factorId == some factorId then { s with aal := aal } else s) }

/-- Per-session claim deletion loop of DowngradeSessionsToAAL1 (models/factor.go
lines 154-158): for each session, DELETE FROM mfa_amr_claims WHERE
session_id = ? AND authentication_method = ?, aborting on the first
failure. -/
def deleteClaimsForSessions (ops : DowngradeOps) (factorType : String) : List Session → List AMRClaim → Except GoError (List AMRClaim)
  | [], claims => .ok claims
  | s :: rest, claims =>
    if ops.deleteClaimFails s.id then .error (GoError.dbError ("delete claims"))
    else deleteClaimsForSessions ops factorType rest (claims.filter (fun c => !(c.sessionId == s.id && c.authenticationMethod == factorType)))

/-- DowngradeSessionsToAAL1, translated from models/factor.go lines 149-161:
find the sessions bound to the factor, delete each one's AMR claim for the
factor's type, then set the assurance level of the user's
factor-associated sessions to baseline. -/
def DowngradeSessionsToAAL1 (ops : DowngradeOps) (f : Factor) (db : DBState) : Except GoError DBState :=
  match FindSessionsByFactorID ops f.id db with
  | .error e => .error e
  | .ok sessions =>
    match deleteClaimsForSessions ops f.factorType sessions db.amrClaims with
    | .error e => .error e
    | .ok claims => updateFactorAssociatedSessions ops f.userId f.id AAL1String { db with amrClaims := claims }

/-- Transactional run of the downgrade.  Modelled from the spec: every
multi-step mutation executes inside a single database transaction whose
abort is a full rollback (spec section 5); the storage transaction wrapper
and the callers that open it are not under src.  An error leaves the
persisted state unchanged. -/
def runDowngradeTransaction (ops : DowngradeOps) (f : Factor) (db : DBState) : DBState :=
  match DowngradeSessionsToAAL1 ops f db with
  | .ok db2 => db2
  | .error _ => db

/-! ## Theorems -/

/-- C5 counterexample: at now exactly equal to lastSentAt plus minInterval the
gate still blocks.  With lastSentAt 0, minInterval 60 and now 60 we have
now at least lastSentAt plus minInterval, yet mayIssue returns false,
contradicting the claim that the boundary is inclusive-true. -/
theorem mayIssue_boundary_counterexample :
    (0 : Int) + 60 ≤ 60 ∧ mayIssue (some 0) 60 60 = false := by decide

/-- C5 (amended): with a null last-sent timestamp the gate always allows; with
lastSentAt t0 the gate allows exactly when t0 + d is strictly before now, so
it blocks on the closed interval from t0 to t0 + d and allows strictly
after; sendConfirmation fails with the frequency-limit error exactly when
the gate blocks. -/
theorem mayIssue_amended_boundary (t0 d now : Int) (otp : String) (mailFails updateFails : Bool) (u : User) :
    mayIssue none d now = true ∧
    (mayIssue (some t0) d now = true ↔ t0 + d < now) ∧
    ((sendConfirmation (.ok otp) mailFails updateFails now d u).err = some GoError.maxFrequencyLimit ↔ rateBlocked u.confirmationSentAt d now = true) ∧
    rateBlocked u.confirmationSentAt d now = !(mayIssue u.confirmationSentAt d now) := by
  refine ⟨rfl, ?_, ?_, by simp [mayIssue]⟩
  · simp [mayIssue, rateBlocked]
  · cases hb : rateBlocked u.confirmationSentAt d now with
    | true => simp [sendConfirmation, hb]
    | false =>
      cases mailFails <;> cases updateFails <;> simp [sendConfirmation, hb]

/-- C7 counterexample: a generic storage fault in the lookup is reported by
FindFactorByFactorID as the dedicated not-found error, even though findFactor
itself reports it as a wrapped database error. -/
theorem findFactorByFactorID_storage_fault_counterexample :
    FindFactorByFactorID (FactorLookup.dbError ("disk failure")) = .error GoError.factorNotFound ∧
    findFactor (FactorLookup.dbError ("disk failure")) ≠ .error GoError.factorNotFound := by decide

/-- C7 (amended): the inner findFactor distinguishes a no-rows miss (the
dedicated not-found error) from any other storage failure (a wrapped
database error, a distinct value); but FindFactorByFactorID collapses every
failure, storage faults included, to the not-found error, while returning
found rows unchanged. -/
theorem findFactor_error_taxonomy_amended (msg : String) (f : Factor) :
    findFactor FactorLookup.noRows = .error GoError.factorNotFound ∧
    findFactor (FactorLookup.dbError msg) = .error (GoError.wrapped ("Database error finding factor") (GoError.dbError msg)) ∧
    GoError.wrapped ("Database error finding factor") (GoError.dbError msg) ≠ GoError.factorNotFound ∧
    FindFactorByFactorID (FactorLookup.found f) = .ok f ∧
    FindFactorByFactorID FactorLookup.noRows = .error GoError.factorNotFound ∧
    FindFactorByFactorID (FactorLookup.dbError msg) = .error GoError.factorNotFound := by
  refine ⟨rfl, rfl, by simp, rfl, rfl, rfl⟩

/-- C4: in every token-sending flow that reaches dispatch (confirmation,
recovery, magic link, reauthentication), a mailer failure makes the
operation return an error while both the in-memory user and the persisted
row keep the previous token and sent-at values: the whole record equals the
record before the call. -/
theorem send_flows_dispatch_failure_restores_token (otp : String) (updateFails : Bool) (now maxFrequency : Int) (u : User)
    (hc : rateBlocked u.confirmationSentAt maxFrequency now = false)
    (hr : rateBlocked u.recoverySentAt maxFrequency now = false)
    (ha : rateBlocked u.reauthenticationSentAt maxFrequency now = false) :
    ((sendConfirmation (.ok otp) true updateFails now maxFrequency u).err.isSome = true ∧
     (sendConfirmation (.ok otp) true updateFails now maxFrequency u).mem = u ∧
     (sendConfirmation (.ok otp) true updateFails now maxFrequency u).persisted = u) ∧
    ((sendPasswordRecovery (.ok otp) true updateFails now maxFrequency u).err.isSome = true ∧
     (sendPasswordRecovery (.ok otp) true updateFails now maxFrequency u).mem = u ∧
     (sendPasswordRecovery (.ok otp) true updateFails now maxFrequency u).persisted = u) ∧
    ((sendMagicLink (.ok otp) true updateFails now maxFrequency u).err.isSome = true ∧
     (sendMagicLink (.ok otp) true updateFails now maxFrequency u).mem = u ∧
     (sendMagicLink (.ok otp) true updateFails now maxFrequency u).persisted = u) ∧
    ((sendReauthenticationOtp (.ok otp) true updateFails now maxFrequency u).err.isSome = true ∧
     (sendReauthenticationOtp (.ok otp) true updateFails now maxFrequency u).mem = u ∧
     (sendReauthenticationOtp (.ok otp) true updateFails now maxFrequency u).persisted = u) := by
  refine ⟨⟨?_, ?_, ?_⟩, ⟨?_, ?_, ?_⟩, ⟨?_, ?_, ?_⟩, ⟨?_, ?_, ?_⟩⟩ <;>
    simp [sendConfirmation, sendPasswordRecovery, sendMagicLink, sendReauthenticationOtp, hc, hr, ha]

/-- C4 witness: a user with no previous sends passes every gate, and a failing
confirmation dispatch leaves the persisted record untouched. -/
theorem send_flows_dispatch_failure_restores_token_witness :
    (sendConfirmation (.ok ("123456")) true false 5 60 ({} : User)).err.isSome = true ∧
    (sendConfirmation (.ok ("123456")) true false 5 60 ({} : User)).persisted = ({} : User) := by
  have h := send_flows_dispatch_failure_restores_token ("123456") false 5 60 ({} : User) (by decide) (by decide) (by decide)
  exact ⟨h.1.1, h.1.2.2⟩

/-- C6 counterexample: an invite requested one time unit after a previous send
with a sixty-unit minimum interval is inside the window (the gate would
block), yet sendInvite succeeds and overwrites the persisted record: the
invite flow performs no rate-gate check. -/
theorem sendInvite_no_rate_gate_counterexample :
    rateBlocked (User.confirmationSentAt { email := "invitee@example.com", confirmationSentAt := some 0 }) 60 1 = true ∧
    (sendInvite (.ok ("123456")) false false 1 { email := "invitee@example.com", confirmationSentAt := some 0 }).err = none ∧
    (sendInvite (.ok ("123456")) false false 1 { email := "invitee@example.com", confirmationSentAt := some 0 }).persisted ≠ { email := "invitee@example.com", confirmationSentAt := some 0 } := by decide

/-- C6 (amended): the confirmation, recovery, magic-link and reauthentication
flows evaluate the rate gate before any other step and, when blocked, fail
with the frequency-limit error leaving both the in-memory and the persisted
record untouched; the invite flow performs no rate-gate check: its returned
error is independent of the last-sent timestamp. -/
theorem rate_gate_gated_flows_amended (genOtp : Except GoError String) (mailFails updateFails : Bool) (now maxFrequency : Int) (t : Option Int) (u : User)
    (hc : rateBlocked u.confirmationSentAt maxFrequency now = true)
    (hr : rateBlocked u.recoverySentAt maxFrequency now = true)
    (ha : rateBlocked u.reauthenticationSentAt maxFrequency now = true) :
    sendConfirmation genOtp mailFails updateFails now maxFrequency u = ⟨some GoError.maxFrequencyLimit, u, u⟩ ∧
    sendPasswordRecovery genOtp mailFails updateFails now maxFrequency u = ⟨some GoError.maxFrequencyLimit, u, u⟩ ∧
    sendMagicLink genOtp mailFails updateFails now maxFrequency u = ⟨some GoError.maxFrequencyLimit, u, u⟩ ∧
    sendReauthenticationOtp genOtp mailFails updateFails now maxFrequency u = ⟨some GoError.maxFrequencyLimit, u, u⟩ ∧
    (sendInvite genOtp mailFails updateFails now u).err = (sendInvite genOtp mailFails updateFails now { u with confirmationSentAt := t }).err := by
  refine ⟨by simp [sendConfirmation, hc], by simp [sendPasswordRecovery, hr], by simp [sendMagicLink, hr], by simp [sendReauthenticationOtp, ha], ?_⟩
  cases genOtp <;> cases mailFails <;> cases updateFails <;> simp [sendInvite]

/-- C6 witness: with every last-sent timestamp set to 0, minimum interval 60
and now 1, each gated flow rejects with the frequency-limit error and no
state change. -/
theorem rate_gate_gated_flows_amended_witness :
    sendConfirmation (.ok ("1")) false false 1 60 { confirmationSentAt := some 0, recoverySentAt := some 0, reauthenticationSentAt := some 0 } = ⟨some GoError.maxFrequencyLimit, { confirmationSentAt := some 0, recoverySentAt := some 0, reauthenticationSentAt := some 0 }, { confirmationSentAt := some 0, recoverySentAt := some 0, reauthenticationSentAt := some 0 }⟩ := by
  exact (rate_gate_gated_flows_amended (.ok ("1")) false false 1 60 none _ (by decide) (by decide) (by decide)).1

/-- List.getD yields either a list element or the default. -/
lemma getD_mem_or_eq (l : List Char) (n : Nat) (d : Char) : l.getD n d ∈ l ∨ l.getD n d = d := by
  induction l generalizing n with
  | nil => right; simp [List.getD]
  | cons a t ih =>
    cases n with
    | zero => left; simp [List.getD]
    | succ m =>
      have h2 : (a :: t).getD (m + 1) d = t.getD m d := by simp [List.getD]
      rcases ih m with h | h
      · left; rw [h2]; exact List.mem_cons_of_mem a h
      · right; rw [h2, h]

/-- Every hexDigit output is one of the sixteen lowercase hex characters. -/
lemma hexDigit_mem (n : Nat) : hexDigit n ∈ hexChars := by
  unfold hexDigit
  rcases getD_mem_or_eq hexChars (n % 16) ('0') with h | h
  · exact h
  · rw [h]; decide

/-- Every character of a wordHex rendering is a lowercase hex character. -/
lemma wordHex_mem {ch : Char} {w : Nat} (h : ch ∈ wordHex w) : ch ∈ hexChars := by
  simp only [wordHex, List.mem_cons, List.not_mem_nil, or_false] at h
  rcases h with h | h | h | h | h | h | h | h <;> exact h ▸ hexDigit_mem _

/-- C8: the token derivation of the source is the lowercase-hex rendering of a
224-bit digest of the concatenated identifier and one-time code: its output
always has exactly 56 characters, every character is a lowercase hex digit,
and the output depends only on the concatenation, so equal inputs yield
equal tokens. -/
theorem tokenHash_fixed_length_lowercase_deterministic (identifier code id2 code2 : String)
    (hcat : identifier ++ code = id2 ++ code2) :
    (sha224Hex (identifier ++ code)).length = 56 ∧
    (∀ ch ∈ (sha224Hex (identifier ++ code)).data, ch ∈ hexChars) ∧
    sha224Hex (identifier ++ code) = sha224Hex (id2 ++ code2) := by
  refine ⟨rfl, ?_, by rw [hcat]⟩
  intro ch hch
  simp only [sha224Hex, sha224HexBytes, List.mem_append] at hch
  rcases hch with h | h | h | h | h | h | h <;> exact wordHex_mem h

/-- C8 witness: a concrete derivation has 56 characters, and regrouping the
identifier and code while keeping the concatenation fixed yields the same
token. -/
theorem tokenHash_fixed_length_lowercase_deterministic_witness :
    (sha224Hex ("user@example.com" ++ "123456")).length = 56 ∧
    sha224Hex ("user@example.com" ++ "123456") = sha224Hex ("user@example.com1" ++ "23456") := by
  have h := tokenHash_fixed_length_lowercase_deterministic ("user@example.com") ("123456") ("user@example.com1") ("23456") (by decide)
  exact ⟨h.1, h.2.2⟩

/-- validateEmail success always returns the lowercased input. -/
lemma validateEmail_ok_eq (v : String → Bool) (e s : String) (h : validateEmail v e = .ok s) :
    s = (⟨e.data.map Char.toLower⟩ : String) := by
  unfold validateEmail at h
  split at h
  · exact absurd h (by simp)
  · split at h
    · exact absurd h (by simp)
    · injection h with h; exact h.symm

/-- C10: validateEmail rejects the empty string with a validation error and on
success returns the submitted email lowercased; consequently the email that
GenerateLink hands to the user lookup and to the token derivation is the
lowercased form of the submitted one. -/
theorem validateEmail_lowercases_and_generateLink_uses_it (v : String → Bool) (e otp em : String) (p : String × String)
    (hv : validateEmail v e = .ok em)
    (hp : generateLinkValidateAndHash v e otp = .ok p) :
    validateEmail v ("") = .error (GoError.unprocessableEntity ("An email address is required")) ∧
    em = (⟨e.data.map Char.toLower⟩ : String) ∧
    p.1 = (⟨e.data.map Char.toLower⟩ : String) ∧
    p.2 = sha224Hex ((⟨e.data.map Char.toLower⟩ : String) ++ otp) := by
  have hem := validateEmail_ok_eq v e em hv
  have hp2 : p = (em, sha224Hex (em ++ otp)) := by
    unfold generateLinkValidateAndHash at hp
    rw [hv] at hp
    injection hp with hp
    exact hp.symm
  refine ⟨rfl, hem, ?_, ?_⟩
  · rw [hp2, ← hem]
  · rw [hp2, ← hem]

/-- C10 witness: a mixed-case concrete email is lowercased before both the
lookup and the derivation. -/
theorem validateEmail_lowercases_and_generateLink_uses_it_witness :
    ("abc@example.com" : String) = (⟨("ABC@Example.Com").data.map Char.toLower⟩ : String) ∧
    ("abc@example.com", sha224Hex ("abc@example.com" ++ "9")).2 = sha224Hex ((⟨("ABC@Example.Com").data.map Char.toLower⟩ : String) ++ "9") := by
  have h := validateEmail_lowercases_and_generateLink_uses_it (fun _ => true) ("ABC@Example.Com") ("9") ("abc@example.com") (("abc@example.com", sha224Hex ("abc@example.com" ++ "9"))) (by decide) (by decide)
  exact ⟨h.2.1, h.2.2.2⟩

/-- C9: in the email-change-new arm of GenerateLink, the persisted
email-change-token-new column holds the digest of the validated new email
concatenated with the one-time code, while the hashed token placed in the
response is the digest of the current email with the same code; whenever
those two digests differ (which distinct emails guarantee short of a SHA-224
collision), the token returned to the caller is not the token persisted. -/
theorem generateLink_email_change_new_token_mismatch (env : GenLinkEnv) (currentEmail newEmailRaw otp referrer : String) (now : Int) (u u2 : User) (resp : GenerateLinkResponse)
    (h : generateLinkEmailChange env ("email_change_new") currentEmail newEmailRaw otp now referrer u = .ok (u2, resp))
    (hne : sha224Hex (currentEmail ++ otp) ≠ sha224Hex ((⟨newEmailRaw.data.map Char.toLower⟩ : String) ++ otp)) :
    u2.emailChangeTokenNew = sha224Hex ((⟨newEmailRaw.data.map Char.toLower⟩ : String) ++ otp) ∧
    resp.hashedToken = sha224Hex (currentEmail ++ otp) ∧
    resp.hashedToken ≠ u2.emailChangeTokenNew := by
  unfold generateLinkEmailChange at h
  simp only [show (("email_change_new" == "email_change_current") = false) from rfl, Bool.and_false, Bool.false_eq_true, if_false] at h
  split at h
  · exact absurd h (by simp)
  · rename_i newEmail heq
    have hlow := validateEmail_ok_eq env.mailerValidates newEmailRaw newEmail heq
    split at h
    · exact absurd h (by simp)
    · split at h
      · exact absurd h (by simp)
      · split at h
        · exact absurd h (by simp)
        · split at h
          · exact absurd h (by simp)
          · injection h with h
            injection h with hu hresp
            subst hlow
            refine ⟨?_, ?_, ?_⟩
            · rw [← hu]; simp
            · rw [← hresp]
            · rw [← hu, ← hresp]; simpa using hne

/-- Concrete collaborator set for the email-change witness: validation passes,
secure change enabled, no duplicate, storage and link generation succeed. -/
def ecEnv : GenLinkEnv := ⟨fun _ => true, true, false, false, false, false, "https://example.test/link"⟩

/-- Concrete successful run of the email-change-new arm. -/
def ecPair : User × GenerateLinkResponse :=
  (generateLinkEmailChange ecEnv ("email_change_new") ("current@example.com") ("NEW@example.com") ("9") 5 ("ref") ({} : User)).toOption.getD (({} : User), ⟨({} : User), "", "", "", "", ""⟩)

/-- C9 witness: on a concrete request whose new email differs from the current
one, the hashed token in the response differs from the persisted
email-change-token-new value. -/
theorem generateLink_email_change_new_token_mismatch_witness :
    ecPair.2.hashedToken ≠ ecPair.1.emailChangeTokenNew := by
  exact (generateLink_email_change_new_token_mismatch ecEnv ("current@example.com") ("NEW@example.com") ("9") ("ref") 5 ({} : User) ecPair.1 ecPair.2 (by decide) (by decide)).2.2

/-- Mapping a conditional update over rows none of which match leaves the list
unchanged. -/
lemma map_update_no_match (p : AMRClaim → Bool) (t : Int) (l : List AMRClaim)
    (h : ∀ c ∈ l, p c = false) :
    (l.map fun c => if p c then { c with updatedAt := t } else c) = l := by
  induction l with
  | nil => rfl
  | cons a l ih =>
    have ha := h a (List.mem_cons_self a l)
    simp [ha, ih (fun c hc => h c (List.mem_cons_of_mem a hc))]

/-- After the row for the pair has been inserted, every further
AddClaimToSession call for the same pair rewrites only that row's updated-at
to the call time. -/
lemma addClaimCalls_after_insert (session : Session) (method : AuthenticationMethod) (rest : List (Nat × Int)) :
    ∀ (claims0 : List AMRClaim) (cid : Nat) (tc tu : Int),
    (∀ c ∈ claims0, (c.sessionId == session.id && c.authenticationMethod == methodString method) = false) →
    addClaimCalls session method rest (claims0 ++ [{ id := cid, sessionId := session.id, createdAt := tc, updatedAt := tu, authenticationMethod := methodString method }]) =
      claims0 ++ [{ id := cid, sessionId := session.id, createdAt := tc, updatedAt := rest.foldl (fun _ call => call.2) tu, authenticationMethod := methodString method }] := by
  induction rest with
  | nil => intro claims0 cid tc tu h; rfl
  | cons call rest ih =>
    intro claims0 cid tc tu h
    have hadd : AddClaimToSession call.1 session method call.2 (claims0 ++ [{ id := cid, sessionId := session.id, createdAt := tc, updatedAt := tu, authenticationMethod := methodString method }]) =
        claims0 ++ [{ id := cid, sessionId := session.id, createdAt := tc, updatedAt := call.2, authenticationMethod := methodString method }] := by
      have hany : ((claims0 ++ [({ id := cid, sessionId := session.id, createdAt := tc, updatedAt := tu, authenticationMethod := methodString method } : AMRClaim)]).any (fun c => c.sessionId == session.id && c.authenticationMethod == methodString method)) = true := by
        simp [List.any_append]
      simp only [AddClaimToSession, hany, if_true, List.map_append]
      rw [map_update_no_match _ call.2 claims0 h]
      simp
    show addClaimCalls session method rest (AddClaimToSession call.1 session method call.2 _) = _
    rw [hadd]
    exact ih claims0 cid tc call.2 h

/-- C3: starting from a table with no row for the (session, method) pair,
any positive number of AddClaimToSession calls for that pair leaves exactly
the original rows plus one new row, whose id and created-at come from the
first call and whose updated-at is the time of the last call; the pair count
is exactly one (so the at-most-one invariant is preserved), and the count of
rows satisfying any predicate that the upserted row does not satisfy is
untouched. -/
theorem addClaim_upsert_at_most_one (session : Session) (method : AuthenticationMethod) (claims0 : List AMRClaim) (call0 : Nat × Int) (rest : List (Nat × Int))
    (h0 : claims0.countP (fun c => c.sessionId == session.id && c.authenticationMethod == methodString method) = 0) :
    addClaimCalls session method (call0 :: rest) claims0 =
      claims0 ++ [{ id := call0.1, sessionId := session.id, createdAt := call0.2, updatedAt := rest.foldl (fun _ call => call.2) call0.2, authenticationMethod := methodString method }] ∧
    (addClaimCalls session method (call0 :: rest) claims0).countP (fun c => c.sessionId == session.id && c.authenticationMethod == methodString method) = 1 ∧
    ∀ p : AMRClaim → Bool, p { id := call0.1, sessionId := session.id, createdAt := call0.2, updatedAt := rest.foldl (fun _ call => call.2) call0.2, authenticationMethod := methodString method } = false →
      (addClaimCalls session method (call0 :: rest) claims0).countP p = claims0.countP p := by
  have hall : ∀ c ∈ claims0, (c.sessionId == session.id && c.authenticationMethod == methodString method) = false := by
    intro c hc
    have := List.countP_eq_zero.mp h0 c hc
    simpa using this
  have hmain : addClaimCalls session method (call0 :: rest) claims0 =
      claims0 ++ [{ id := call0.1, sessionId := session.id, createdAt := call0.2, updatedAt := rest.foldl (fun _ call => call.2) call0.2, authenticationMethod := methodString method }] := by
    have hfirst : AddClaimToSession call0.1 session method call0.2 claims0 =
        claims0 ++ [{ id := call0.1, sessionId := session.id, createdAt := call0.2, updatedAt := call0.2, authenticationMethod := methodString method }] := by
      have hany : (claims0.any (fun c => c.sessionId == session.id && c.authenticationMethod == methodString method)) = false :=
        List.any_eq_false.mpr (fun c hc => by simp [hall c hc])
      simp [AddClaimToSession, hany]
    show addClaimCalls session method rest (AddClaimToSession call0.1 session method call0.2 claims0) = _
    rw [hfirst]
    exact addClaimCalls_after_insert session method rest claims0 call0.1 call0.2 call0.2 hall
  refine ⟨hmain, ?_, ?_⟩
  · rw [hmain, List.countP_append, h0]
    simp [List.countP_cons]
  · intro p hp
    rw [hmain, List.countP_append]
    simp [List.countP_cons, hp]

/-- Session used by the ledger witness. -/
def sessionW : Session := ⟨1, 7, some 1, "aal2"⟩

/-- C3 witness: on an empty table, a first recordUse call at time 100 followed
by a second at time 200 yields a single row for the pair created at 100 with
updated-at 200. -/
theorem addClaim_upsert_at_most_one_witness :
    addClaimCalls sessionW AuthenticationMethod.totpSignIn ((10, 100) :: [(11, 200)]) [] =
      [{ id := 10, sessionId := 1, createdAt := 100, updatedAt := 200, authenticationMethod := "totp" }] := by
  have h := addClaim_upsert_at_most_one sessionW AuthenticationMethod.totpSignIn [] (10, 100) [(11, 200)] (by decide)
  exact h.1.trans (by decide)

/-- A successful claim-deletion loop only ever removes rows. -/
lemma deleteClaims_subset (ops : DowngradeOps) (ftype : String) :
    ∀ (sessions : List Session) (claims claims2 : List AMRClaim),
    deleteClaimsForSessions ops ftype sessions claims = .ok claims2 → claims2 ⊆ claims := by
  intro sessions
  induction sessions with
  | nil =>
    intro claims claims2 h
    injection h with h
    exact h ▸ List.Subset.refl claims2
  | cons s rest ih =>
    intro claims claims2 h
    unfold deleteClaimsForSessions at h
    split at h
    · exact absurd h (by simp)
    · exact (ih _ _ h).trans (List.filter_sublist _).subset

/-- A successful claim-deletion loop leaves no row matching any listed session
together with the factor type. -/
lemma deleteClaims_clears (ops : DowngradeOps) (ftype : String) :
    ∀ (sessions : List Session) (claims claims2 : List AMRClaim),
    deleteClaimsForSessions ops ftype sessions claims = .ok claims2 →
    ∀ s ∈ sessions, ∀ c ∈ claims2, ¬(c.sessionId = s.id ∧ c.authenticationMethod = ftype) := by
  intro sessions
  induction sessions with
  | nil =>
    intro claims claims2 h s hs
    exact absurd hs (by simp)
  | cons s0 rest ih =>
    intro claims claims2 h s hs c hc
    unfold deleteClaimsForSessions at h
    split at h
    · exact absurd h (by simp)
    · rcases List.mem_cons.mp hs with rfl | hs2
      · have hcf := deleteClaims_subset ops ftype rest _ _ h hc
        have hnot := (List.mem_filter.mp hcf).2
        rintro ⟨h1, h2⟩
        simp [h1, h2] at hnot
      · exact ih _ _ h s hs2 c hc

/-- A deletion failure for any listed session aborts the loop with an error. -/
lemma deleteClaims_err_of_fail (ops : DowngradeOps) (ftype : String) :
    ∀ (sessions : List Session) (claims : List AMRClaim),
    (∃ s ∈ sessions, ops.deleteClaimFails s.id = true) →
    ∃ e, deleteClaimsForSessions ops ftype sessions claims = .error e := by
  intro sessions
  induction sessions with
  | nil =>
    rintro claims ⟨s, hs, _⟩
    exact absurd hs (by simp)
  | cons s0 rest ih =>
    rintro claims ⟨s, hs, hf⟩
    unfold deleteClaimsForSessions
    by_cases h0 : ops.deleteClaimFails s0.id = true
    · exact ⟨GoError.dbError ("delete claims"), by rw [if_pos h0]⟩
    · rw [if_neg h0]
      apply ih
      rcases List.mem_cons.mp hs with rfl | hs2
      · exact absurd hf h0
      · exact ⟨s, hs2, hf⟩

/-- C1: whenever DowngradeSessionsToAAL1 returns successfully, no session
returned by the sessions-by-factor-id query retains an AMR claim whose
method equals the factor's type, and every surviving session row of the
factor's user that is associated with the factor carries the baseline
assurance level. -/
theorem downgrade_clears_factor_claims_and_sets_aal1 (ops : DowngradeOps) (f : Factor) (db db2 : DBState)
    (h : DowngradeSessionsToAAL1 ops f db = .ok db2) :
    (∀ s ∈ db.sessions.filter (fun x => x.factorId == some f.id), ∀ c ∈ db2.amrClaims, ¬(c.sessionId = s.id ∧ c.authenticationMethod = f.factorType)) ∧
    (∀ s ∈ db2.sessions, s.userId = f.userId → s.factorId = some f.id → s.aal = AAL1String) := by
  unfold DowngradeSessionsToAAL1 at h
  split at h
  · exact absurd h (by simp)
  · rename_i sessions hfind
    have hsess : sessions = db.sessions.filter (fun x => x.factorId == some f.id) := by
      unfold FindSessionsByFactorID at hfind
      split at hfind
      · exact absurd hfind (by simp)
      · injection hfind with hfind; exact hfind.symm
    split at h
    · exact absurd h (by simp)
    · rename_i claims2 hdel
      unfold updateFactorAssociatedSessions at h
      split at h
      · exact absurd h (by simp)
      · injection h with h
        constructor
        · intro s hs c hc
          have hclaims : db2.amrClaims = claims2 := by rw [← h]
          rw [hclaims] at hc
          exact deleteClaims_clears ops f.factorType sessions db.amrClaims claims2 hdel s (by rw [hsess]; exact hs) c hc
        · intro s hs hu hf2
          have hsessions : db2.sessions = db.sessions.map (fun t => if t.userId == f.userId && t.factorId == some f.id then { t with aal := AAL1String } else t) := by rw [← h]
          rw [hsessions] at hs
          rcases List.mem_map.mp hs with ⟨t, ht, hte⟩
          by_cases hcond : (t.userId == f.userId && t.factorId == some f.id) = true
          · rw [if_pos hcond] at hte
            rw [← hte]
          · rw [if_neg hcond] at hte
            subst hte
            simp [hu, hf2] at hcond

/-- Factor used by the downgrade witnesses. -/
def dgFactor : Factor := ⟨1, 7, 0, 0, "verified", "phone", "topsecret", "totp"⟩

/-- Two-session database used by the downgrade witnesses: session 1 is bound
to the factor and carries a totp and a password claim; session 2 is not
bound to it. -/
def dgDB : DBState := ⟨[⟨1, 7, some 1, "aal2"⟩, ⟨2, 7, none, "aal2"⟩], [⟨1, 1, 0, 0, "totp"⟩, ⟨2, 1, 0, 0, "password"⟩]⟩

/-- Failure-free storage operations. -/
def dgOps : DowngradeOps := ⟨false, fun _ => false, false⟩

/-- Database state after the witness downgrade run. -/
def dgDBAfter : DBState := (DowngradeSessionsToAAL1 dgOps dgFactor dgDB).toOption.getD dgDB

/-- C1 witness: after a concrete successful downgrade of the totp factor, no
row of the claim table matches the bound session together with the totp
method. -/
theorem downgrade_clears_factor_claims_and_sets_aal1_witness :
    dgDBAfter.amrClaims.all (fun c => !(c.sessionId == 1 && c.authenticationMethod == "totp")) = true := by
  have h := downgrade_clears_factor_claims_and_sets_aal1 dgOps dgFactor dgDB dgDBAfter (by decide)
  apply List.all_eq_true.mpr
  intro c hc
  have hne := h.1 ⟨1, 7, some 1, "aal2"⟩ (by decide) c hc
  simp only [not_and] at hne
  simpa [dgFactor, Decidable.or_iff_not_imp_left] using hne

/-- C2: if a claim deletion fails for one of the sessions returned by the
sessions-by-factor-id query, or the final assurance-level update fails, the
downgrade returns an error and the transactional run leaves the database
exactly as it was: no claim deleted, no assurance level changed. -/
theorem downgrade_failure_rolls_back (ops : DowngradeOps) (f : Factor) (db : DBState)
    (h : (∃ s ∈ db.sessions.filter (fun x => x.factorId == some f.id), ops.deleteClaimFails s.id = true) ∨ ops.updateSessionsFails = true) :
    (∃ e, DowngradeSessionsToAAL1 ops f db = .error e) ∧ runDowngradeTransaction ops f db = db := by
  have herr : ∃ e, DowngradeSessionsToAAL1 ops f db = .error e := by
    cases hfind : FindSessionsByFactorID ops f.id db with
    | error e => exact ⟨e, by simp [DowngradeSessionsToAAL1, hfind]⟩
    | ok sessions =>
      have hsess : sessions = db.sessions.filter (fun x => x.factorId == some f.id) := by
        unfold FindSessionsByFactorID at hfind
        split at hfind
        · exact absurd hfind (by simp)
        · injection hfind with hfind; exact hfind.symm
      rcases h with ⟨s, hs, hf⟩ | hupd
      · obtain ⟨e, hdel⟩ := deleteClaims_err_of_fail ops f.factorType sessions db.amrClaims ⟨s, by rw [hsess]; exact hs, hf⟩
        exact ⟨e, by simp [DowngradeSessionsToAAL1, hfind, hdel]⟩
      · cases hdel : deleteClaimsForSessions ops f.factorType sessions db.amrClaims with
        | error e => exact ⟨e, by simp [DowngradeSessionsToAAL1, hfind, hdel]⟩
        | ok claims2 =>
          exact ⟨GoError.dbError ("update sessions"), by simp [DowngradeSessionsToAAL1, hfind, hdel, updateFactorAssociatedSessions, hupd]⟩
  obtain ⟨e, he⟩ := herr
  refine ⟨⟨e, he⟩, ?_⟩
  unfold runDowngradeTransaction
  rw [he]

/-- Storage operations whose claim deletion fails for session 1. -/
def dgOpsFail : DowngradeOps := ⟨false, fun sid => sid == 1, false⟩

/-- C2 witness: with the deletion for the bound session failing, the
transactional downgrade run leaves the concrete database untouched. -/
theorem downgrade_failure_rolls_back_witness :
    runDowngradeTransaction dgOpsFail dgFactor dgDB = dgDB := by
  exact (downgrade_failure_rolls_back dgOpsFail dgFactor dgDB (Or.inl ⟨⟨1, 7, some 1, "aal2"⟩, by decide, by decide⟩)).2
